import Mathlib

/-!
Verification of the pricejumper-api backend against its design document.

The repository's `main.py` provides the persistence/auth/routing layer
(users, shopping lists, list items, JWT-guarded endpoints); it is embedded
below as pure state-passing functions over a `Store`.  The price-comparison
engine (source registry, query builder, fetcher, extractor, aggregator) is
not part of `main.py`; it is modelled from the design document, as marked
on each such definition.
-/

namespace PriceJumper

/-! ## Price-comparison engine (modelled from the spec) -/

/-- Modelled from the spec: lower-casing of a product name, represented at
the character level so that concrete instances evaluate. -/
def lowerChars (s : List Char) : List Char := s.map Char.toLower

/-- Modelled from the spec: `needle` occurs as a contiguous substring of
`haystack` (the "keyword is a substring of the lower-cased product name"
test of the Query Builder). -/
def isSubstrOf (needle : List Char) : List Char → Bool
  | [] => needle.isEmpty
  | c :: t => needle.isPrefixOf (c :: t) || isSubstrOf needle t

/-- Modelled from the spec: the generic fallback transformation of the
Query Builder, replacing each whitespace character by the source's
query-separator. -/
def replaceSpaces (sep : List Char) : List Char → List Char
  | [] => []
  | c :: t => (if c = ' ' then sep else [c]) ++ replaceSpaces sep t

/-- Modelled from the spec: a Source Descriptor.  The query-URL template
has exactly one substitution point, represented by the pair
`url_head`/`url_tail` surrounding the substituted query.  The
extraction rule is opaque to the engine and carried as data.
`product_mapping` is the ordered keyword-to-canonical-query mapping;
`separator` is the source's expected query separator. -/
structure SourceDescriptor where
  name : String
  url_head : String
  url_tail : String
  extraction_rule : String
  product_mapping : List (String × String)
  separator : String
deriving DecidableEq

/-- Modelled from the spec: typed fetch failures. -/
inductive FetchError where
  | Network
  | BadStatus
  | Timeout
deriving DecidableEq

/-- Modelled from the spec: result of `fetch`, raw page content or a typed
failure. -/
inductive FetchResult where
  | ok (content : String)
  | err (e : FetchError)
deriving DecidableEq

/-- Modelled from the spec: the Price Lookup Outcome of one
(source, product) pair. -/
inductive Outcome where
  | Found (price : ℚ)
  | NotFound
  | SourceError (e : FetchError)
deriving DecidableEq

/-- Modelled from the spec: rounding to 2 decimal places of the presented
currency unit. -/
def round2 (q : ℚ) : ℚ := (round (q * 100) : ℤ) / 100

/-- Modelled from the spec: the Query Builder.  Scan `product_mapping` in
declaration order for the first keyword that is a substring of the
lower-cased product name; fall back to the whitespace-to-separator
transformation when no keyword matches. -/
def build_query (product_name : String) (source : SourceDescriptor) : String :=
  let lowered := lowerChars product_name.data
  match source.product_mapping.find? (fun kv => isSubstrOf kv.1.data lowered) with
  | some kv => kv.2
  | none => String.mk (replaceSpaces source.separator.data lowered)

/-- Modelled from the spec: one (source, product) lookup, composing the
Fetcher and the Extractor.  A fetch failure becomes `SourceError`, an
absent extraction becomes `NotFound`, and a parsed price is rounded to
2 decimals before aggregation.  The Fetcher and Extractor are supplied as
functions, standing for the network and the page-parsing rule. -/
def lookupPair (fetch : String → FetchResult) (extract : String → String → Option ℚ)
    (source : SourceDescriptor) (product : String) : Outcome :=
  match fetch (source.url_head ++ build_query product source ++ source.url_tail) with
  | FetchResult.err e => Outcome.SourceError e
  | FetchResult.ok content =>
    match extract source.extraction_rule content with
    | none => Outcome.NotFound
    | some price => Outcome.Found (round2 price)

/-- Modelled from the spec: a Source Comparison Result. -/
structure SourceComparisonResult where
  source_name : String
  total_cost : ℚ
  found_count : Nat
  requested_count : Nat
deriving DecidableEq

/-- Modelled from the spec: per-source accumulation of the total cost and
hit count over the products, in order, duplicates processed individually. -/
def accumulate (fetch : String → FetchResult) (extract : String → String → Option ℚ)
    (source : SourceDescriptor) (products : List String) : ℚ × Nat :=
  products.foldl (fun acc product =>
    match lookupPair fetch extract source product with
    | Outcome.Found price => (acc.1 + price, acc.2 + 1)
    | _ => acc) (0, 0)

/-- Modelled from the spec: the Source Comparison Result of one source,
with the accumulated total rounded to 2 decimals. -/
def summarize (fetch : String → FetchResult) (extract : String → String → Option ℚ)
    (products : List String) (source : SourceDescriptor) : SourceComparisonResult :=
  { source_name := source.name
    total_cost := round2 (accumulate fetch extract source products).1
    found_count := (accumulate fetch extract source products).2
    requested_count := products.length }

/-- Modelled from the spec: the `"<found>/<requested>"` display string. -/
def found_products (r : SourceComparisonResult) : String :=
  toString r.found_count ++ "/" ++ toString r.requested_count

/-- Modelled from the spec: the per-source results in registry declaration
order, keeping only sources with at least one hit. -/
def resultsInRegistryOrder (fetch : String → FetchResult)
    (extract : String → String → Option ℚ)
    (products : List String) (registry : List SourceDescriptor) :
    List SourceComparisonResult :=
  (registry.map (summarize fetch extract products)).filter
    (fun r => 0 < r.found_count)

/-- Ordering of ranked entries: ascending total cost. -/
def costle (a b : SourceComparisonResult) : Prop := a.total_cost ≤ b.total_cost

instance : DecidableRel costle :=
  fun a b => inferInstanceAs (Decidable (a.total_cost ≤ b.total_cost))

instance : IsTotal SourceComparisonResult costle :=
  ⟨fun a b => le_total a.total_cost b.total_cost⟩

instance : IsTrans SourceComparisonResult costle :=
  ⟨fun _ _ _ h1 h2 => le_trans h1 h2⟩

/-- Modelled from the spec: the Comparison Aggregator.  Summaries are
computed per source in registry order, zero-hit sources are dropped, and
the rest are sorted ascending by total cost with a stable sort. -/
def compare (fetch : String → FetchResult) (extract : String → String → Option ℚ)
    (products : List String) (registry : List SourceDescriptor) :
    List SourceComparisonResult :=
  List.insertionSort costle (resultsInRegistryOrder fetch extract products registry)

example : round2 (7/2) = 7/2 := by norm_num [round2, round_eq]

example : build_query "Mleko 2%" (SourceDescriptor.mk "A" "" "" "r" [("mleko", "mleko")] "+") = "mleko" := by decide

example : build_query "ser zolty" (SourceDescriptor.mk "A" "" "" "r" [("mleko", "mleko")] "+") = "ser+zolty" := by decide

/-! ## Persistence/auth layer (embedded from `main.py`) -/

/-- The `class User(SQLModel)` table of `main.py`: id, unique email, hashed password. -/
structure User where
  id : Nat
  email : String
  hashed_password : String
deriving DecidableEq

/-- The `class ShoppingList(SQLModel)` table of `main.py`. -/
structure ShoppingList where
  id : Nat
  name : String
  owner_id : Nat
deriving DecidableEq

/-- The `class ListItem(SQLModel)` table of `main.py`. -/
structure ListItem where
  id : Nat
  product_name : String
  list_id : Nat
deriving DecidableEq

/-- The `class UserCreate(BaseModel)` request body of `main.py`. -/
structure UserCreate where
  email : String
  password : String
deriving DecidableEq

/-- The SQLite database of `main.py`: the three tables in insertion order,
plus the next auto-assigned primary key of each. -/
structure Store where
  users : List User
  lists : List ShoppingList
  items : List ListItem
  nextUserId : Nat
  nextListId : Nat
  nextItemId : Nat
deriving DecidableEq

/-- Embeds `get_password_hash` of `main.py`, which delegates to bcrypt; embedded
as an abstract tagging function, since no claim inspects the digest. -/
def get_password_hash (password : String) : String := "bcrypt$" ++ password

/-- Embeds `session.exec(select(User).where(User.email == email)).first()` as used
in `main.py`: the first stored user with the given email. -/
def findUserByEmail (st : Store) (email : String) : Option User :=
  st.users.find? (fun u => u.email == email)

/-- Embeds `register_user` of `main.py` (lines 94-108): reject an already
registered email with HTTP 400; otherwise insert the new user, then insert
their first shopping list named `"Lista zakupów <email>"`, and return the
new user.  The error case carries the HTTP status code. -/
def register_user (user_data : UserCreate) (st : Store) : Except Nat User × Store :=
  match findUserByEmail st user_data.email with
  | some _ => (Except.error 400, st)
  | none =>
    let new_user : User :=
      { id := st.nextUserId
        email := user_data.email
        hashed_password := get_password_hash user_data.password }
    let st1 : Store := { st with users := st.users ++ [new_user], nextUserId := st.nextUserId + 1 }
    let new_list : ShoppingList :=
      { id := st1.nextListId
        name := "Lista zakupów " ++ new_user.email
        owner_id := new_user.id }
    let st2 : Store := { st1 with lists := st1.lists ++ [new_list], nextListId := st1.nextListId + 1 }
    (Except.ok new_user, st2)

/-- Embeds `get_my_shopping_list_items` of `main.py` (lines 124-134): look up the
authenticated user's shopping list; if absent, create it first; then
return the items of that list. -/
def get_my_shopping_list_items (current_user : User) (st : Store) :
    List ListItem × Store :=
  match st.lists.find? (fun l => l.owner_id == current_user.id) with
  | some shopping_list =>
    (st.items.filter (fun i => i.list_id == shopping_list.id), st)
  | none =>
    let shopping_list : ShoppingList :=
      { id := st.nextListId
        name := "Lista zakupów " ++ current_user.email
        owner_id := current_user.id }
    let st1 : Store := { st with lists := st.lists ++ [shopping_list], nextListId := st.nextListId + 1 }
    (st1.items.filter (fun i => i.list_id == shopping_list.id), st1)

/-- Result of `jwt.decode` followed by `payload.get("sub")` in
`get_current_user` of `main.py`: either a `JWTError`, or a payload whose
optional `"sub"` claim is returned. -/
inductive JwtDecodeResult where
  | jwtError
  | payload (sub : Option String)
deriving DecidableEq

/-- Embeds `get_current_user` of `main.py` (lines 79-91): 401 when the token does
not verify, when the payload has no `"sub"` claim, or when no user with
the claimed email exists; otherwise the stored user.  The token
verification is supplied as a function, standing for `jwt.decode` with the
server key; the store is returned to make the absence of writes explicit. -/
def get_current_user (decodeToken : String → JwtDecodeResult) (token : String)
    (st : Store) : Except Nat User × Store :=
  match decodeToken token with
  | JwtDecodeResult.jwtError => (Except.error 401, st)
  | JwtDecodeResult.payload none => (Except.error 401, st)
  | JwtDecodeResult.payload (some email) =>
    match findUserByEmail st email with
    | none => (Except.error 401, st)
    | some user => (Except.ok user, st)

/-! ## Theorems about the comparison engine -/

/-- C1: for every fetcher, extractor, products list and registry, the
ranked result of `compare` is sorted ascending by `total_cost`, and any
two entries with equal `total_cost` keep the relative order they have in
the registry-declaration-order pre-sort list (stable sort). -/
theorem compare_sorted_stable (fetch : String → FetchResult)
    (extract : String → String → Option ℚ)
    (products : List String) (registry : List SourceDescriptor) :
    List.Sorted costle (compare fetch extract products registry) ∧
    ∀ a b : SourceComparisonResult, a.total_cost = b.total_cost →
      List.Sublist [a, b] (resultsInRegistryOrder fetch extract products registry) →
      List.Sublist [a, b] (compare fetch extract products registry) := by
  refine ⟨List.sorted_insertionSort costle _, ?_⟩
  intro a b hab hsub
  exact List.pair_sublist_insertionSort (le_of_eq hab) hsub

/-- C2: a source contributes an entry to the final ranked output of
`compare` iff its `found_count` is positive; every emitted entry has a
positive `found_count`, so zero-hit sources are omitted entirely. -/
theorem compare_mem_iff_found (fetch : String → FetchResult)
    (extract : String → String → Option ℚ)
    (products : List String) (registry : List SourceDescriptor) :
    (∀ e ∈ compare fetch extract products registry, 0 < e.found_count) ∧
    ∀ s ∈ registry,
      (summarize fetch extract products s ∈ compare fetch extract products registry ↔
        0 < (summarize fetch extract products s).found_count) := by
  constructor
  · intro e he
    have h1 : e ∈ resultsInRegistryOrder fetch extract products registry :=
      (List.mem_insertionSort costle).1 he
    have h2 := (List.mem_filter.1 h1).2
    simpa using h2
  · intro s hs
    constructor
    · intro h
      have h1 : summarize fetch extract products s ∈
          resultsInRegistryOrder fetch extract products registry :=
        (List.mem_insertionSort costle).1 h
      have h2 := (List.mem_filter.1 h1).2
      simpa using h2
    · intro h
      apply (List.mem_insertionSort costle).2
      apply List.mem_filter.2
      exact ⟨List.mem_map_of_mem _ hs, by simpa using h⟩

/-- C3: `compare` is a total function of its inputs, and when every
(source, product) pair fails — fetch error, timeout, or absent
extraction, i.e. no pair produces a `Found` outcome — it returns the
empty ranked result rather than an error. -/
theorem compare_all_failures_empty (fetch : String → FetchResult)
    (extract : String → String → Option ℚ)
    (products : List String) (registry : List SourceDescriptor)
    (h : ∀ s ∈ registry, ∀ p ∈ products, ∀ q, lookupPair fetch extract s p ≠ Outcome.Found q) :
    compare fetch extract products registry = [] := by
  have key : ∀ (s : SourceDescriptor), s ∈ registry → ∀ (l : List String),
      (∀ p ∈ l, ∀ q, lookupPair fetch extract s p ≠ Outcome.Found q) →
      ∀ acc : ℚ × Nat,
      l.foldl (fun acc product =>
        match lookupPair fetch extract s product with
        | Outcome.Found price => (acc.1 + price, acc.2 + 1)
        | _ => acc) acc = acc := by
    intro s hs l
    induction l with
    | nil => intro _ acc; rfl
    | cons p t ih =>
      intro hl acc
      have hp := hl p (List.mem_cons_self p t)
      rw [List.foldl_cons]
      cases hx : lookupPair fetch extract s p with
      | Found q => exact absurd hx (hp q)
      | NotFound =>
        simp only [hx]
        exact ih (fun p hp => hl p (List.mem_cons_of_mem _ hp)) acc
      | SourceError e =>
        simp only [hx]
        exact ih (fun p hp => hl p (List.mem_cons_of_mem _ hp)) acc
  have hres : resultsInRegistryOrder fetch extract products registry = [] := by
    rw [resultsInRegistryOrder, List.filter_eq_nil_iff]
    intro r hr
    rcases List.mem_map.1 hr with ⟨s, hs, rfl⟩
    have : (accumulate fetch extract s products).2 = 0 := by
      rw [accumulate, key s hs products (h s hs)]
    simp [summarize, this]
  rw [compare, hres]
  rfl

/-- C5: for every fetcher, extractor and registry, comparing an empty
products list yields the empty ranked result and no error. -/
theorem compare_empty_products (fetch : String → FetchResult)
    (extract : String → String → Option ℚ) (registry : List SourceDescriptor) :
    compare fetch extract [] registry = [] := by
  have hres : resultsInRegistryOrder fetch extract [] registry = [] := by
    rw [resultsInRegistryOrder, List.filter_eq_nil_iff]
    intro r hr
    rcases List.mem_map.1 hr with ⟨s, hs, rfl⟩
    simp [summarize, accumulate]
  rw [compare, hres]
  rfl

/-! ## Concrete fixtures for scenario claims and witnesses -/

/-- A source mapping the keyword "mleko" to the canonical query "mleko". -/
def srcA : SourceDescriptor :=
  SourceDescriptor.mk "Source A" "https://a.example/szukaj?q=" "" "ruleA"
    [("mleko", "mleko")] "+"

/-- A source with no keyword mapping. -/
def srcB : SourceDescriptor :=
  SourceDescriptor.mk "Source B" "https://b.example/s?query=" "" "ruleB" [] "+"

/-- A fetcher that always succeeds with a fixed page. -/
def fetchOk : String → FetchResult := fun _ => FetchResult.ok "strona"

/-- A fetcher whose every request times out. -/
def fetchTimeout : String → FetchResult := fun _ => FetchResult.err FetchError.Timeout

/-- An extractor that finds the price 3.50 on every page. -/
def extract350 : String → String → Option ℚ := fun _ _ => some (7/2)

lemma round2_350 : round2 (7/2) = 7/2 := by norm_num [round2, round_eq]

lemma eval_results_AB :
    resultsInRegistryOrder fetchOk extract350 ["mleko"] [srcA, srcB] =
      [SourceComparisonResult.mk "Source A" (7/2) 1 1,
       SourceComparisonResult.mk "Source B" (7/2) 1 1] := by
  simp [resultsInRegistryOrder, summarize, accumulate, lookupPair, fetchOk,
    extract350, srcA, srcB, round2_350]

lemma eval_compare_AB :
    compare fetchOk extract350 ["mleko"] [srcA, srcB] =
      [SourceComparisonResult.mk "Source A" (7/2) 1 1,
       SourceComparisonResult.mk "Source B" (7/2) 1 1] := by
  rw [compare, eval_results_AB]
  simp [List.insertionSort, List.orderedInsert, costle]

/-- C4: duplicate products are priced independently: a source finding
"mleko" at 3.50 against `["mleko", "mleko"]` totals 7.00 with
`found_products = "2/2"`. -/
theorem compare_duplicate_products :
    compare fetchOk extract350 ["mleko", "mleko"] [srcA] =
      [SourceComparisonResult.mk "Source A" 7 2 2] ∧
    found_products (SourceComparisonResult.mk "Source A" 7 2 2) = "2/2" := by
  constructor
  · have h7 : round2 (0 + 7/2 + 7/2) = 7 := by norm_num [round2, round_eq]
    have h77 : round2 7 = 7 := by norm_num [round2, round_eq]
    simp [compare, resultsInRegistryOrder, summarize, accumulate, lookupPair,
      fetchOk, extract350, round2_350, h7, h77, srcA, List.insertionSort,
      List.orderedInsert]
  · decide

/-- C6: the Query Builder returns the canonical query of the first keyword
of `product_mapping` (in declaration order) that is a substring of the
lower-cased product name, and falls back to the whitespace-to-separator
transformation when no keyword matches; it never fails, being a total
function. -/
theorem build_query_spec (product : String) (source : SourceDescriptor) :
    (∀ (pre post : List (String × String)) (k v : String),
      source.product_mapping = pre ++ (k, v) :: post →
      (∀ kv ∈ pre, isSubstrOf kv.1.data (lowerChars product.data) = false) →
      isSubstrOf k.data (lowerChars product.data) = true →
      build_query product source = v) ∧
    ((∀ kv ∈ source.product_mapping, isSubstrOf kv.1.data (lowerChars product.data) = false) →
      build_query product source =
        String.mk (replaceSpaces source.separator.data (lowerChars product.data))) := by
  constructor
  · intro pre post k v hmap hpre hk
    have h1 : pre.find? (fun kv => isSubstrOf kv.1.data (lowerChars product.data)) = none :=
      List.find?_eq_none.2 (by intro kv hkv; simp [hpre kv hkv])
    have h2 : List.find? (fun kv => isSubstrOf kv.1.data (lowerChars product.data))
        ((k, v) :: post) = some (k, v) :=
      List.find?_cons_of_pos _ (by simpa using hk)
    simp only [build_query, hmap, List.find?_append, h1, Option.none_or, h2]
  · intro hall
    have h1 : source.product_mapping.find?
        (fun kv => isSubstrOf kv.1.data (lowerChars product.data)) = none :=
      List.find?_eq_none.2 (by intro kv hkv; simp [hall kv hkv])
    simp only [build_query, h1]

/-- Witness for C1 at a concrete tie: two sources with equal total cost
keep their registry order in the ranked output. -/
theorem compare_sorted_stable_witness :
    (SourceComparisonResult.mk "Source A" (7/2) 1 1).total_cost =
      (SourceComparisonResult.mk "Source B" (7/2) 1 1).total_cost ∧
    List.Sublist
      [SourceComparisonResult.mk "Source A" (7/2) 1 1,
       SourceComparisonResult.mk "Source B" (7/2) 1 1]
      (resultsInRegistryOrder fetchOk extract350 ["mleko"] [srcA, srcB]) ∧
    List.Sublist
      [SourceComparisonResult.mk "Source A" (7/2) 1 1,
       SourceComparisonResult.mk "Source B" (7/2) 1 1]
      (compare fetchOk extract350 ["mleko"] [srcA, srcB]) := by
  have hsub : List.Sublist
      [SourceComparisonResult.mk "Source A" (7/2) 1 1,
       SourceComparisonResult.mk "Source B" (7/2) 1 1]
      (resultsInRegistryOrder fetchOk extract350 ["mleko"] [srcA, srcB]) := by
    rw [eval_results_AB]
  exact ⟨rfl, hsub,
    (compare_sorted_stable fetchOk extract350 ["mleko"] [srcA, srcB]).2 _ _ rfl hsub⟩

/-- Witness for C2 at a concrete registry: Source A is in the registry,
its summary has one hit, and it appears in the ranked output. -/
theorem compare_mem_iff_found_witness :
    (SourceComparisonResult.mk "Source A" (7/2) 1 1 ∈
        compare fetchOk extract350 ["mleko"] [srcA, srcB] ∧
      0 < (SourceComparisonResult.mk "Source A" (7/2) 1 1).found_count) ∧
    (srcA ∈ [srcA, srcB] ∧
      (summarize fetchOk extract350 ["mleko"] srcA ∈
          compare fetchOk extract350 ["mleko"] [srcA, srcB] ↔
        0 < (summarize fetchOk extract350 ["mleko"] srcA).found_count)) := by
  have hmem : SourceComparisonResult.mk "Source A" (7/2) 1 1 ∈
      compare fetchOk extract350 ["mleko"] [srcA, srcB] := by
    rw [eval_compare_AB]
    exact List.mem_cons_self _ _
  refine ⟨⟨hmem, ?_⟩, List.mem_cons_self _ _, ?_⟩
  · exact (compare_mem_iff_found fetchOk extract350 ["mleko"] [srcA, srcB]).1 _ hmem
  · exact (compare_mem_iff_found fetchOk extract350 ["mleko"] [srcA, srcB]).2 srcA
      (List.mem_cons_self _ _)

/-- Witness for C3: with a fetcher that times out on every request, every
pair fails and the ranked result is empty. -/
theorem compare_all_failures_empty_witness :
    (∀ s ∈ [srcA, srcB], ∀ p ∈ ["mleko"], ∀ q,
      lookupPair fetchTimeout extract350 s p ≠ Outcome.Found q) ∧
    compare fetchTimeout extract350 ["mleko"] [srcA, srcB] = [] := by
  have h : ∀ s ∈ [srcA, srcB], ∀ p ∈ ["mleko"], ∀ q,
      lookupPair fetchTimeout extract350 s p ≠ Outcome.Found q := by
    intro s _ p _ q
    simp [lookupPair, fetchTimeout]
  exact ⟨h, compare_all_failures_empty fetchTimeout extract350 ["mleko"] [srcA, srcB] h⟩

/-- A source with a two-entry keyword mapping, for the C6 witness. -/
def srcW : SourceDescriptor :=
  SourceDescriptor.mk "W" "https://w.example/?q=" "" "ruleW"
    [("ser", "ser zolty"), ("mleko", "mleko")] "+"

/-- Witness for C6 at concrete inputs: "Mleko 2%" hits the second mapping
entry (the first does not match), and "woda mineralna" hits none, falling
back to the generic transformation. -/
theorem build_query_spec_witness :
    (srcW.product_mapping = [("ser", "ser zolty")] ++ ("mleko", "mleko") :: [] ∧
      (∀ kv ∈ [("ser", "ser zolty")],
        isSubstrOf kv.1.data (lowerChars "Mleko 2%".data) = false) ∧
      isSubstrOf "mleko".data (lowerChars "Mleko 2%".data) = true ∧
      build_query "Mleko 2%" srcW = "mleko") ∧
    ((∀ kv ∈ srcW.product_mapping,
        isSubstrOf kv.1.data (lowerChars "woda mineralna".data) = false) ∧
      build_query "woda mineralna" srcW =
        String.mk (replaceSpaces srcW.separator.data (lowerChars "woda mineralna".data))) := by
  refine ⟨⟨rfl, by decide, by decide, ?_⟩, by decide, ?_⟩
  · exact (build_query_spec "Mleko 2%" srcW).1 [("ser", "ser zolty")] [] "mleko" "mleko"
      rfl (by decide) (by decide)
  · exact (build_query_spec "woda mineralna" srcW).2 (by decide)

/-! ## Theorems about the persistence/auth layer -/

/-- C7: `register_user` enforces uniqueness of the email key and maps the
violation to HTTP 400 leaving the store unchanged; a fresh email succeeds
and appends exactly one user record with that email. -/
theorem register_user_spec (d : UserCreate) (st : Store) :
    (∀ u, findUserByEmail st d.email = some u →
      register_user d st = (Except.error 400, st)) ∧
    (findUserByEmail st d.email = none →
      (register_user d st).1 =
        Except.ok (User.mk st.nextUserId d.email (get_password_hash d.password)) ∧
      (register_user d st).2.users =
        st.users ++ [User.mk st.nextUserId d.email (get_password_hash d.password)] ∧
      (register_user d st).2.users.countP (fun u => u.email == d.email) = 1) := by
  constructor
  · intro u hu
    simp [register_user, hu]
  · intro hnone
    have hcount : st.users.countP (fun u => u.email == d.email) = 0 := by
      rw [List.countP_eq_zero]
      intro u hu
      have := List.find?_eq_none.1 hnone u hu
      simpa using this
    refine ⟨?_, ?_, ?_⟩ <;>
      simp [register_user, hnone, List.countP_append, hcount]

/-- C8: a successful `register_user` leaves exactly one shopping list
owned by the new user, named `"Lista zakupów <email>"`.  The freshness
hypothesis states that no pre-existing list is owned by the not yet
assigned user id, which the auto-increment key discipline guarantees. -/
theorem register_user_creates_list (d : UserCreate) (st : Store) (u : User)
    (hok : (register_user d st).1 = Except.ok u)
    (hfresh : ∀ l ∈ st.lists, l.owner_id < st.nextUserId) :
    (register_user d st).2.lists.countP
      (fun l => l.owner_id == u.id && l.name == "Lista zakupów " ++ u.email) = 1 ∧
    (register_user d st).2.lists.countP (fun l => l.owner_id == u.id) = 1 := by
  cases hu : findUserByEmail st d.email with
  | some w => simp [register_user, hu] at hok
  | none =>
    have hu' : u = User.mk st.nextUserId d.email (get_password_hash d.password) := by
      have h := hok
      simp [register_user, hu] at h
      exact h.symm
    have hne : ∀ l ∈ st.lists, (l.owner_id == st.nextUserId) = false := by
      intro l hl
      simp only [beq_eq_false_iff_ne]
      exact Nat.ne_of_lt (hfresh l hl)
    have h0 : st.lists.countP (fun l => l.owner_id == st.nextUserId) = 0 :=
      List.countP_eq_zero.2 (fun l hl => by simp [hne l hl])
    have h0' : st.lists.countP
        (fun l => l.owner_id == st.nextUserId &&
          l.name == "Lista zakupów " ++ d.email) = 0 :=
      List.countP_eq_zero.2 (fun l hl => by simp [hne l hl])
    rw [hu']
    constructor <;>
      simp [register_user, hu, List.countP_append, h0, h0']

/-- C9: the read endpoint `get_my_shopping_list_items` is not
state-preserving: with no list for the user it creates one owned by the
user as a side effect and returns the then-empty item list; with an
existing list the store is unchanged.  The freshness hypothesis states
that no stored item refers to the not yet assigned list id. -/
theorem get_my_shopping_list_items_spec (u : User) (st : Store)
    (hfresh : ∀ i ∈ st.items, i.list_id < st.nextListId) :
    (∀ l, st.lists.find? (fun x => x.owner_id == u.id) = some l →
      (get_my_shopping_list_items u st).2 = st) ∧
    (st.lists.find? (fun x => x.owner_id == u.id) = none →
      (get_my_shopping_list_items u st).1 = [] ∧
      (get_my_shopping_list_items u st).2.lists =
        st.lists ++ [ShoppingList.mk st.nextListId ("Lista zakupów " ++ u.email) u.id] ∧
      (get_my_shopping_list_items u st).2.items = st.items ∧
      (get_my_shopping_list_items u st).2.users = st.users) := by
  constructor
  · intro l hl
    simp [get_my_shopping_list_items, hl]
  · intro hnone
    have hempty : st.items.filter (fun i => i.list_id == st.nextListId) = [] :=
      List.filter_eq_nil_iff.2 (fun i hi => by
        simp [Nat.ne_of_lt (hfresh i hi)])
    refine ⟨?_, ?_, ?_, ?_⟩ <;>
      simp [get_my_shopping_list_items, hnone, hempty]

/-- C10: `get_current_user` answers 401 exactly when the token fails JWT
verification, or the payload lacks a `"sub"` claim, or no user with the
claimed email is stored; otherwise it returns that user; and it never
writes to the store. -/
theorem get_current_user_spec (decodeToken : String → JwtDecodeResult)
    (token : String) (st : Store) :
    (get_current_user decodeToken token st).2 = st ∧
    ((get_current_user decodeToken token st).1 = Except.error 401 ↔
      decodeToken token = JwtDecodeResult.jwtError ∨
      decodeToken token = JwtDecodeResult.payload none ∨
      ∃ email, decodeToken token = JwtDecodeResult.payload (some email) ∧
        findUserByEmail st email = none) ∧
    (∀ email user, decodeToken token = JwtDecodeResult.payload (some email) →
      findUserByEmail st email = some user →
      (get_current_user decodeToken token st).1 = Except.ok user) := by
  refine ⟨?_, ⟨?_, ?_⟩, ?_⟩
  · cases h : decodeToken token with
    | jwtError => simp [get_current_user, h]
    | payload s =>
      cases s with
      | none => simp [get_current_user, h]
      | some email =>
        cases hf : findUserByEmail st email with
        | none => simp [get_current_user, h, hf]
        | some user => simp [get_current_user, h, hf]
  · intro h401
    cases h : decodeToken token with
    | jwtError => exact Or.inl rfl
    | payload s =>
      cases s with
      | none => exact Or.inr (Or.inl rfl)
      | some email =>
        cases hf : findUserByEmail st email with
        | none => exact Or.inr (Or.inr ⟨email, rfl, hf⟩)
        | some user => simp [get_current_user, h, hf] at h401
  · intro hcase
    rcases hcase with h | h | ⟨email, h, hf⟩
    · simp [get_current_user, h]
    · simp [get_current_user, h]
    · simp [get_current_user, h, hf]
  · intro email user hd hf
    simp [get_current_user, hd, hf]

/-! ## Concrete stores for the persistence witnesses -/

/-- A registration request fixture. -/
def d0 : UserCreate := UserCreate.mk "a@example.com" "haslo123"

/-- The user record produced by registering `d0` into an empty store. -/
def u0 : User := User.mk 1 "a@example.com" (get_password_hash "haslo123")

/-- The empty database. -/
def stEmpty : Store := Store.mk [] [] [] 1 1 1

/-- A store already holding `u0`, so `d0`'s email is taken. -/
def stDup : Store := Store.mk [u0] [] [] 2 2 1

/-- A store holding `u0` together with their shopping list. -/
def stWithList : Store :=
  Store.mk [u0] [ShoppingList.mk 1 "Lista zakupów a@example.com" 1] [] 2 2 1

/-- A token verifier accepting every token with subject `a@example.com`. -/
def decodeOk : String → JwtDecodeResult :=
  fun _ => JwtDecodeResult.payload (some "a@example.com")

/-- Witness for C7 at concrete stores: the duplicate email is rejected
with 400 and the store untouched; the fresh email is inserted once. -/
theorem register_user_spec_witness :
    (findUserByEmail stDup d0.email = some u0 ∧
      register_user d0 stDup = (Except.error 400, stDup)) ∧
    (findUserByEmail stEmpty d0.email = none ∧
      (register_user d0 stEmpty).1 =
        Except.ok (User.mk stEmpty.nextUserId d0.email (get_password_hash d0.password)) ∧
      (register_user d0 stEmpty).2.users =
        stEmpty.users ++
          [User.mk stEmpty.nextUserId d0.email (get_password_hash d0.password)] ∧
      (register_user d0 stEmpty).2.users.countP (fun u => u.email == d0.email) = 1) := by
  refine ⟨⟨?_, ?_⟩, ?_, ?_⟩
  · decide
  · exact (register_user_spec d0 stDup).1 u0 (by decide)
  · decide
  · exact (register_user_spec d0 stEmpty).2 (by decide)

/-- Witness for C8: registering `d0` into the empty store creates exactly
one list owned by the new user with the expected name. -/
theorem register_user_creates_list_witness :
    (register_user d0 stEmpty).1 = Except.ok u0 ∧
    (∀ l ∈ stEmpty.lists, l.owner_id < stEmpty.nextUserId) ∧
    ((register_user d0 stEmpty).2.lists.countP
      (fun l => l.owner_id == u0.id && l.name == "Lista zakupów " ++ u0.email) = 1 ∧
    (register_user d0 stEmpty).2.lists.countP (fun l => l.owner_id == u0.id) = 1) := by
  refine ⟨by rfl, by simp [stEmpty], ?_⟩
  exact register_user_creates_list d0 stEmpty u0 (by rfl) (by simp [stEmpty])

/-- Witness for C9 at concrete stores: with a list present the store is
unchanged; with no list one is created and the empty item list returned. -/
theorem get_my_shopping_list_items_spec_witness :
    ((∀ i ∈ stWithList.items, i.list_id < stWithList.nextListId) ∧
      stWithList.lists.find? (fun x => x.owner_id == u0.id) =
        some (ShoppingList.mk 1 "Lista zakupów a@example.com" 1) ∧
      (get_my_shopping_list_items u0 stWithList).2 = stWithList) ∧
    ((∀ i ∈ stEmpty.items, i.list_id < stEmpty.nextListId) ∧
      stEmpty.lists.find? (fun x => x.owner_id == u0.id) = none ∧
      ((get_my_shopping_list_items u0 stEmpty).1 = [] ∧
        (get_my_shopping_list_items u0 stEmpty).2.lists =
          stEmpty.lists ++
            [ShoppingList.mk stEmpty.nextListId ("Lista zakupów " ++ u0.email) u0.id] ∧
        (get_my_shopping_list_items u0 stEmpty).2.items = stEmpty.items ∧
        (get_my_shopping_list_items u0 stEmpty).2.users = stEmpty.users)) := by
  refine ⟨⟨by simp [stWithList], by decide, ?_⟩, by simp [stEmpty], by decide, ?_⟩
  · exact (get_my_shopping_list_items_spec u0 stWithList (by simp [stWithList])).1
      (ShoppingList.mk 1 "Lista zakupów a@example.com" 1) (by decide)
  · exact (get_my_shopping_list_items_spec u0 stEmpty (by simp [stEmpty])).2 (by decide)

/-- Witness for C10: a verified token whose subject is a stored user's
email yields that user. -/
theorem get_current_user_spec_witness :
    decodeOk "token" = JwtDecodeResult.payload (some "a@example.com") ∧
    findUserByEmail stDup "a@example.com" = some u0 ∧
    (get_current_user decodeOk "token" stDup).1 = Except.ok u0 := by
  refine ⟨rfl, by decide, ?_⟩
  exact (get_current_user_spec decodeOk "token" stDup).2.2 "a@example.com" u0 rfl (by decide)

end PriceJumper
